import Mathlib

/-! The users web service (homework-3/webapp)

A shallow embedding of the request path of the service: the four handlers,
the middleware and the routes of `main.go`, and `WriteToInfluxDB` of
`influx/influxdb.go`.  Start-up (`influxdb.Init`, `mongo.Init` of
`mongo/db.go`) happens before the first request and is not modelled.

The service is glue between three collaborators that live outside the
repository: the MongoDB driver, the InfluxDB client and `net/http` with
`encoding/json`.  Each collaborator is represented by the part of its state the
handlers can observe (`World`, `ResponseWriter`) and every outcome the
collaborator alone decides (an error, a generated id, elapsed time) is an
explicit input (`Env`).  The handlers themselves are transcribed statement by
statement.

`World` is the state of a running server, that is, after `influxdb.Init` and
`mongo.Init` have succeeded in `main`: both package-level clients are set.
-/

namespace Webapp

/-! ## Data model -/

/-- Text of a Go `error` value. -/
abbrev Err := String

/-- The BSON values the model distinguishes.  `nonFinite` is a double holding
NaN or an infinity, the value `encoding/json` refuses to marshal. -/
inductive BsonValue
  | str (s : String)
  | int (n : Int)
  | objectID (hex : String)
  | nonFinite
  deriving DecidableEq, Repr

/-- A `bson.M` / `bson.D` document: keys with their values. -/
abbrev Doc := List (String × BsonValue)

/-- Calls made on the `users` collection handle, in program order. -/
inductive StoreCall
  | find (filter : Doc)
  | insertMany (docs : List Doc)
  | deleteMany (filter : Doc)
  deriving DecidableEq, Repr

/-- Values of the `map[string]interface{}` field set handed to InfluxDB.
`seconds d` is the `float64` returned by `Duration.Seconds()` for a duration of
`d` nanoseconds; it is negative exactly when `d` is. -/
inductive FieldValue
  | int (n : Int)
  | seconds (d : Int)
  deriving DecidableEq, Repr

/-- An InfluxDB point as built by `client.NewPoint`. -/
structure Point where
  measurement : String
  tags : List (String × String)
  fields : List (String × FieldValue)
  time : Nat
  deriving DecidableEq, Repr

/-- An InfluxDB batch as built by `client.NewBatchPoints`. -/
structure BatchPoints where
  database : String
  precision : String
  points : List Point
  deriving DecidableEq, Repr

/-- Observable state of the running process and of its two backends.

* `users`: the documents of collection `main.users`;
* `storeCalls`: the calls the process made on that collection;
* `influx`: the batches the InfluxDB server accepted, oldest first;
* `logged`: lines written through package `log`;
* `clock`: the monotonic clock reading in nanoseconds. -/
structure World where
  users : List Doc
  storeCalls : List StoreCall
  influx : List BatchPoints
  logged : List String
  clock : Nat
  deriving DecidableEq, Repr

/-- What the InfluxDB client library answers to the three calls of one
`WriteToInfluxDB`: `none` is a nil error. -/
structure SinkFault where
  batchErr : Option Err
  pointErr : Option Err
  writeErr : Option Err
  deriving DecidableEq, Repr

/-- What the collaborators decide during one request.

* `findErr`, `decodeErr`, `insertErr`, `deleteErr`: the error returned by
  `Find`, `cursor.All`, `InsertMany`, `DeleteMany` (`none` is nil);
* `newID i`: the `_id` the i-th document of an `InsertMany` receives;
* `opWrite`: the answers to the metric write made by the handler;
* `mwWrite`: the answers to the metric write made by the middleware;
* `storeNanos`, `sinkNanos`: time a store call and a metric write take. -/
structure Env where
  findErr : Option Err
  decodeErr : Option Err
  insertErr : Option Err
  newID : Nat → BsonValue
  deleteErr : Option Err
  opWrite : SinkFault
  mwWrite : SinkFault
  storeNanos : Nat
  sinkNanos : Nat

/-- The parts of `*http.Request` the program reads, and the body it never
reads. -/
structure Request where
  method : String
  path : String
  body : String
  deriving DecidableEq, Repr

/-! ## encoding/json and net/http -/

/-- Values of the fields of the two response structs and of the health map. -/
inductive JVal
  | str (s : String)
  | int (n : Int)
  | strs (xs : List String)
  deriving DecidableEq, Repr

/-- The JSON text `json.Marshal` produces for the values the handlers encode:
`null`, an array of documents, or an object. -/
inductive JsonText
  | null
  | array (elems : List Doc)
  | object (fields : List (String × JVal))
  deriving DecidableEq, Repr

/-- One write to the response body.  `json v` is what `Encoder.Encode` writes
(the JSON text of `v` and a newline), `line s` what `fmt.Fprintln` writes
(`s` and a newline). -/
inductive Chunk
  | json (v : JsonText)
  | line (s : String)
  deriving DecidableEq, Repr

/-- An `http.ResponseWriter`.

* `head`: whether the request being answered has method HEAD;
* `header`: the header map the handler edits through `w.Header()`;
* `wroteHeader`: whether `WriteHeader` has taken place;
* `status`, `sent`: the status code and the headers sent with it: the header
  map as it was at `WriteHeader`, and the `Content-Type` the server adds by
  sniffing when the map held none;
* `body`: the body the client receives, as the writes in order. -/
structure ResponseWriter where
  head : Bool
  header : List (String × String)
  wroteHeader : Bool
  status : Nat
  sent : List (String × String)
  body : List Chunk
  deriving DecidableEq, Repr

/-- The writer `net/http` hands to a handler for a request whose method is not
HEAD. -/
def ResponseWriter.fresh : ResponseWriter :=
  { head := false, header := [], wroteHeader := false, status := 0, sent := [], body := [] }

/-- The writer `net/http` hands to a handler for the request `r`. -/
def ResponseWriter.forRequest (r : Request) : ResponseWriter :=
  { ResponseWriter.fresh with head := decide (r.method = "HEAD") }

/-- `w.Header().Set(key, value)`: replaces whatever `key` held. -/
def ResponseWriter.headerSet (w : ResponseWriter) (key value : String) : ResponseWriter :=
  { w with header := w.header.filter (fun kv => kv.1 ≠ key) ++ [(key, value)] }

/-- `w.WriteHeader(code)`: sends the status line with the headers set so far.
A second call is ignored by `net/http`. -/
def ResponseWriter.WriteHeader (w : ResponseWriter) (code : Nat) : ResponseWriter :=
  if w.wroteHeader then w
  else { w with wroteHeader := true, status := code, sent := w.header }

/-- `http.DetectContentType` on the first bytes of the body.  The texts this
program writes are the JSON text of `Encode`, which begins with a brace, a
bracket or `null` and holds no control byte, and the line of `http.Error`;
none of them matches a signature of the sniffing algorithm, which then answers
plain text. -/
def DetectContentType (c : Chunk) : String :=
  match c with
  | Chunk.json _ => "text/plain; charset=utf-8"
  | Chunk.line _ => "text/plain; charset=utf-8"

/-- `w.Write(...)`: `WriteHeader(200)` first when no status was set; when the
headers to send hold no `Content-Type` the server sniffs one from this first
write; the bytes go to the client unless the request is a HEAD, whose body
writes the server accepts and discards.  (The statuses of this program, 200
and 500, both allow a body.) -/
def ResponseWriter.Write (w : ResponseWriter) (c : Chunk) : ResponseWriter :=
  let w1 := if w.wroteHeader then w else w.WriteHeader 200
  let w2 :=
    if w1.sent.any (fun kv => decide (kv.1 = "Content-Type")) then w1
    else { w1 with sent := w1.sent ++ [("Content-Type", DetectContentType c)] }
  if w2.head then w2 else { w2 with body := w2.body ++ [c] }

/-- The value of a header among those sent with the status line. -/
def ResponseWriter.sentHeader (w : ResponseWriter) (key : String) : Option String :=
  (w.sent.find? (fun kv => kv.1 = key)).map Prod.snd

def StatusOK : Nat := 200

def StatusInternalServerError : Nat := 500

/-- `http.Error(w, error, code)`: a plain-text reply. -/
def httpError (w : ResponseWriter) (error : String) (code : Nat) : ResponseWriter :=
  let w1 := w.headerSet "Content-Type" "text/plain; charset=utf-8"
  let w2 := w1.headerSet "X-Content-Type-Options" "nosniff"
  let w3 := w2.WriteHeader code
  w3.Write (Chunk.line error)

/-- Whether `encoding/json` can marshal the document. -/
def Doc.encodable (d : Doc) : Bool :=
  d.all (fun kv => decide (kv.2 ≠ BsonValue.nonFinite))

/-- `json.Marshal` of a `[]bson.M`.  A Go slice is `none` when it is nil; a nil
slice marshals as `null`, any other as an array. -/
def marshalDocs (results : Option (List Doc)) : Except Err JsonText :=
  match results with
  | none => .ok JsonText.null
  | some ds =>
    if ds.all Doc.encodable then .ok (JsonText.array ds)
    else .error "json: unsupported value"

/-- `json.NewEncoder(w).Encode(v)` for an already marshalled `v`: on a marshal
error nothing is written and the error is returned.  The connection accepts
every write, so marshalling is the only source of an error. -/
def Encode (w : ResponseWriter) (v : Except Err JsonText) : ResponseWriter × Option Err :=
  match v with
  | .error e => (w, some e)
  | .ok j => (w.Write (Chunk.json j), none)

/-! ## Package log and package time -/

/-- `log.Println(a, b)`: the operands separated by a blank. -/
def logPrintln (s : World) (a b : String) : World :=
  { s with logged := s.logged ++ [a ++ " " ++ b] }

/-- The logging half of `log.Fatal(err)`; the caller then leaves the process. -/
def logFatal (s : World) (err : Err) : World :=
  { s with logged := s.logged ++ [err] }

def maxDuration : Int := 2 ^ 63 - 1

def minDuration : Int := -(2 ^ 63)

/-- `t.Sub(u)` on two monotonic readings: the difference as an `int64` of
nanoseconds, saturating at the ends of the range. -/
def timeSub (t u : Nat) : Int :=
  let d : Int := (t : Int) - (u : Int)
  if d > maxDuration then maxDuration
  else if d < minDuration then minDuration
  else d

/-! ## influx/influxdb.go -/

def InfluxDB : String := "metrics"

/-- `bp.AddPoint(pt)`. -/
def BatchPoints.AddPoint (bp : BatchPoints) (pt : Point) : BatchPoints :=
  { bp with points := bp.points ++ [pt] }

/-- `WriteToInfluxDB(measurement, tags, fields)`.  `.ok` is a normal return,
`.error` is the process leaving through `log.Fatal`; both carry the state
reached.  `f` holds the answers of the client library and `nanos` the time
the write takes. -/
def WriteToInfluxDB (f : SinkFault) (nanos : Nat) (measurement : String)
    (tags : List (String × String)) (fields : List (String × FieldValue))
    (s : World) : Except World World :=
  match f.batchErr with
  | some err => .error (logFatal s err)
  | none =>
    let bp : BatchPoints := { database := InfluxDB, precision := "s", points := [] }
    match f.pointErr with
    | some err => .error (logFatal s err)
    | none =>
      let pt : Point :=
        { measurement := measurement, tags := tags, fields := fields, time := s.clock }
      let bp1 := bp.AddPoint pt
      match f.writeErr with
      | some err => .error (logFatal s err)
      | none => .ok { s with influx := s.influx ++ [bp1], clock := s.clock + nanos }

/-! ## The collection handle of the MongoDB driver -/

/-- A document matches a filter when it holds every pair of the filter; the
empty filter `bson.D{}` matches every document. -/
def Doc.matchesFilter (filter d : Doc) : Bool :=
  filter.all (fun kv => decide (kv ∈ d))

/-- `collection.Find(ctx, filter)`: a cursor over the matching documents. -/
def Find (env : Env) (s : World) (filter : Doc) : World × Except Err (List Doc) :=
  let s1 : World :=
    { s with storeCalls := s.storeCalls ++ [StoreCall.find filter],
             clock := s.clock + env.storeNanos }
  match env.findErr with
  | some err => (s1, .error err)
  | none => (s1, .ok (s.users.filter (Doc.matchesFilter filter)))

/-- Go `append` on a slice that may be nil. -/
def goAppend {α : Type} (xs : Option (List α)) (x : α) : Option (List α) :=
  some (xs.getD [] ++ [x])

/-- `cursor.All(ctx, &results)`: appends every document of the cursor to the
slice behind `results`.  With no document the slice is left as it was, so a
nil slice stays nil (the driver documents it: a nil slice pointer will not be
modified if the cursor has been closed, exhausted, or is empty). -/
def cursorAll (env : Env) (cursor : List Doc) (results : Option (List Doc)) :
    Except Err (Option (List Doc)) :=
  match env.decodeErr with
  | some err => .error err
  | none => .ok (cursor.foldl goAppend results)

/-- The document as stored: the driver puts the generated `_id` first. -/
def withID (id : BsonValue) (d : Doc) : Doc :=
  ("_id", id) :: d

/-- The ids of an `InsertMany` of `n` documents. -/
def insertedIDs (env : Env) (n : Nat) : List BsonValue :=
  (List.range n).map env.newID

/-- `collection.InsertMany(ctx, docs)`: on success the `InsertedIDs` of the
result, one per document.  A failed insert is taken to store nothing. -/
def InsertMany (env : Env) (s : World) (docs : List Doc) : World × Except Err (List BsonValue) :=
  let s1 : World :=
    { s with storeCalls := s.storeCalls ++ [StoreCall.insertMany docs],
             clock := s.clock + env.storeNanos }
  match env.insertErr with
  | some err => (s1, .error err)
  | none =>
    let ids := insertedIDs env docs.length
    ({ s1 with users := s1.users ++ List.zipWith withID ids docs }, .ok ids)

/-- `collection.DeleteMany(ctx, filter)`: on success the `DeletedCount` of the
result.  A failed delete is taken to remove nothing. -/
def DeleteMany (env : Env) (s : World) (filter : Doc) : World × Except Err Int :=
  let s1 : World :=
    { s with storeCalls := s.storeCalls ++ [StoreCall.deleteMany filter],
             clock := s.clock + env.storeNanos }
  match env.deleteErr with
  | some err => (s1, .error err)
  | none =>
    let gone := s1.users.filter (Doc.matchesFilter filter)
    ({ s1 with users := s1.users.filter (fun d => !Doc.matchesFilter filter d) },
      .ok (gone.length : Int))

/-! ## main.go -/

/-- How a call of a handler ends.

* `returned`: the handler returned; `net/http` completes the response `w`;
* `panicked`: the handler panicked; `net/http` recovers, drops the connection
  and keeps serving, `w` is what had been written;
* `exited`: the process left through `log.Fatal`. -/
inductive Outcome
  | returned (s : World) (w : ResponseWriter)
  | panicked (s : World) (w : ResponseWriter) (msg : String)
  | exited (s : World)
  deriving DecidableEq, Repr

/-- An `http.HandlerFunc`, with the collaborators made explicit. -/
abbrev Handler := Env → World → ResponseWriter → Request → Outcome

/-- The literal `users` of `postUsersHandler`. -/
def users : List Doc :=
  [
    [("name", .str "User 1"), ("email", .str "user1@example.com"), ("username", .str "user1")],
    [("name", .str "User 2"), ("email", .str "user2@example.com"), ("username", .str "user2")],
    [("name", .str "User 3"), ("email", .str "user3@example.com"), ("username", .str "user3")],
    [("name", .str "User 4"), ("email", .str "user4@example.com"), ("username", .str "user4")],
    [("name", .str "User 5"), ("email", .str "user5@example.com"), ("username", .str "user5")],
    [("name", .str "User 6"), ("email", .str "user6@example.com"), ("username", .str "user6")],
    [("name", .str "User 7"), ("email", .str "user7@example.com"), ("username", .str "user7")],
    [("name", .str "User 8"), ("email", .str "user8@example.com"), ("username", .str "user8")],
    [("name", .str "User 9"), ("email", .str "user9@example.com"), ("username", .str "user9")],
    [("name", .str "User 10"), ("email", .str "user10@example.com"), ("username", .str "user10")]
  ]

/-- `getUsersHandler`.  The deferred `cursor.Close` has no effect the model
observes and is left out. -/
def getUsersHandler : Handler := fun env s w _r =>
  -- cursor, err := collection.Find(context.Background(), bson.D{})
  match Find env s [] with
  | (s1, .error err) =>
    Outcome.returned (logPrintln s1 "Error finding documents:" err)
      (httpError w "Internal server error" StatusInternalServerError)
  | (s1, .ok cursor) =>
    -- var results []bson.M
    let results : Option (List Doc) := none
    match cursorAll env cursor results with
    | .error err =>
      Outcome.returned (logPrintln s1 "Error decoding documents:" err)
        (httpError w "Internal server error" StatusInternalServerError)
    | .ok results1 =>
      let w1 := w.headerSet "Content-Type" "application/json"
      match Encode w1 (marshalDocs results1) with
      | (w2, some err) =>
        Outcome.returned (logPrintln s1 "Error encoding response:" err)
          (httpError w2 "Internal server error" StatusInternalServerError)
      | (w2, none) => Outcome.returned s1 w2

/-- The loop `response.UserIDs[i] = id.(string)`: the strings, or `none` when
an assertion panics. -/
def assertStrings : List BsonValue → Option (List String)
  | [] => some []
  | BsonValue.str s :: rest => (assertStrings rest).map (fun ss => s :: ss)
  | _ :: _ => none

def postUsersHandler : Handler := fun env s w _r =>
  -- result, err := collection.InsertMany(context.Background(), users)
  match InsertMany env s users with
  | (s1, .error err) =>
    Outcome.returned (logPrintln s1 "Error inserting documents:" err)
      (httpError w "Internal server error" StatusInternalServerError)
  | (s1, .ok insertedIDs) =>
    match WriteToInfluxDB env.opWrite env.sinkNanos "user_operations"
        [("operation", "insert")] [("count", FieldValue.int users.length)] s1 with
    | .error s2 => Outcome.exited s2
    | .ok s2 =>
      match assertStrings insertedIDs with
      | none =>
        Outcome.panicked s2 w "interface conversion: interface \x7b\x7d is not string"
      | some userIDs =>
        let response : JsonText := JsonText.object
          [("message", JVal.str "10 users inserted successfully"),
           ("userIds", JVal.strs userIDs)]
        let w1 := w.headerSet "Content-Type" "application/json"
        match Encode w1 (.ok response) with
        | (w2, some err) =>
          Outcome.returned (logPrintln s2 "Error encoding response:" err)
            (httpError w2 "Internal server error" StatusInternalServerError)
        | (w2, none) => Outcome.returned s2 w2

def deleteAllUsersHandler : Handler := fun env s w _r =>
  -- result, err := collection.DeleteMany(context.Background(), bson.D{})
  match DeleteMany env s [] with
  | (s1, .error err) =>
    Outcome.returned (logPrintln s1 "Error deleting documents:" err)
      (httpError w "Internal server error" StatusInternalServerError)
  | (s1, .ok deletedCount) =>
    match WriteToInfluxDB env.opWrite env.sinkNanos "user_operations"
        [("operation", "delete")] [("count", FieldValue.int deletedCount)] s1 with
    | .error s2 => Outcome.exited s2
    | .ok s2 =>
      let response : JsonText := JsonText.object
        [("message", JVal.str "All users deleted successfully"),
         ("deletedCount", JVal.int deletedCount)]
      let w1 := w.headerSet "Content-Type" "application/json"
      match Encode w1 (.ok response) with
      | (w2, some err) =>
        Outcome.returned (logPrintln s2 "Error encoding response:" err)
          (httpError w2 "Internal server error" StatusInternalServerError)
      | (w2, none) => Outcome.returned s2 w2

def healthCheckHandler : Handler := fun _env s w _r =>
  let w1 := w.WriteHeader StatusOK
  -- the error of Encode is discarded
  let w2 := (Encode w1 (.ok (JsonText.object [("status", JVal.str "up")]))).1
  Outcome.returned s w2

def metricsMiddleware (next : Handler) : Handler := fun env s w r =>
  let startTime := s.clock
  match next env s w r with
  | Outcome.returned s1 w1 =>
    let duration := timeSub s1.clock startTime
    match WriteToInfluxDB env.mwWrite env.sinkNanos "webapp"
        [("method", r.method), ("path", r.path)]
        [("count", FieldValue.int 1), ("duration", FieldValue.seconds duration)] s1 with
    | .error s2 => Outcome.exited s2
    | .ok s2 => Outcome.returned s2 w1
  | Outcome.panicked s1 w1 msg => Outcome.panicked s1 w1 msg
  | Outcome.exited s1 => Outcome.exited s1

/-- The four routes registered in `main`; `none` when the request matches no
route and the router answers by itself. -/
def router (r : Request) : Option Handler :=
  if r.path = "/users" then
    if r.method = "GET" then some (metricsMiddleware getUsersHandler)
    else if r.method = "POST" then some (metricsMiddleware postUsersHandler)
    else if r.method = "DELETE" then some (metricsMiddleware deleteAllUsersHandler)
    else none
  else if r.path = "/health" then some (metricsMiddleware healthCheckHandler)
  else none

/-! ## Running requests -/

/-- The state an outcome leaves behind. -/
def Outcome.world : Outcome → World
  | Outcome.returned s _ => s
  | Outcome.panicked s _ _ => s
  | Outcome.exited s => s

/-- The completed response, when there is one. -/
def Outcome.response : Outcome → Option ResponseWriter
  | Outcome.returned _ w => some w
  | Outcome.panicked _ _ _ => none
  | Outcome.exited _ => none

/-- One request served by the router on a fresh writer; `none` when no route
of `main` matches. -/
def serve (env : Env) (s : World) (r : Request) : Option Outcome :=
  (router r).map (fun h => h env s (ResponseWriter.forRequest r) r)

/-- A client library that answers every call with a nil error. -/
def SinkFault.healthy : SinkFault :=
  { batchErr := none, pointErr := none, writeErr := none }

/-- An InfluxDB server that refuses the batch. -/
def SinkFault.down : SinkFault :=
  { batchErr := none, pointErr := none, writeErr := some "connection refused" }

/-- The batch one successful `WriteToInfluxDB` sends. -/
def singlePoint (measurement : String) (tags : List (String × String))
    (fields : List (String × FieldValue)) (time : Nat) : BatchPoints :=
  { database := "metrics", precision := "s",
    points := [{ measurement := measurement, tags := tags, fields := fields, time := time }] }

/-- The reply `http.Error` writes on a fresh writer for the handlers' fixed
message. -/
def internalServerError : ResponseWriter :=
  httpError ResponseWriter.fresh "Internal server error" StatusInternalServerError

/-- Both backends answer, the driver generates ObjectIDs. -/
def healthyEnv : Env :=
  { findErr := none, decodeErr := none, insertErr := none,
    newID := fun i => BsonValue.objectID (toString i),
    deleteErr := none, opWrite := SinkFault.healthy, mwWrite := SinkFault.healthy,
    storeNanos := 1000000, sinkNanos := 500000 }

/-- Both backends answer, the store assigns string ids. -/
def stringIDEnv : Env :=
  { healthyEnv with newID := fun i => BsonValue.str (toString i) }

/-- The store answers, InfluxDB refuses every batch. -/
def sinkDownEnv : Env :=
  { stringIDEnv with opWrite := SinkFault.down, mwWrite := SinkFault.down }

/-- Every store call fails, each with an error text of its own. -/
def storeDownEnv : Env :=
  { healthyEnv with findErr := some "find: server selection timeout",
                    decodeErr := some "decode: cursor closed",
                    insertErr := some "insert: write exception",
                    deleteErr := some "delete: not primary" }

/-- A server whose collection is empty and that has written nothing yet. -/
def emptyWorld : World :=
  { users := [], storeCalls := [], influx := [], logged := [], clock := 0 }

/-- A server whose collection holds three documents. -/
def threeUsers : World :=
  { emptyWorld with
    users := [[("_id", .objectID "a1"), ("name", .str "Ann")],
              [("_id", .objectID "a2"), ("name", .str "Bob")],
              [("_id", .int 7)]] }

def getUsers : Request := { method := "GET", path := "/users", body := "" }

def postUsers : Request := { method := "POST", path := "/users", body := "ignored" }

def deleteUsers : Request := { method := "DELETE", path := "/users", body := "" }

def getHealth : Request := { method := "GET", path := "/health", body := "" }

def headHealth : Request := { method := "HEAD", path := "/health", body := "" }

/-- The world after the request, when a route matched and the process is
still running. -/
def after (env : Env) (s : World) (r : Request) : World :=
  match serve env s r with
  | some o => o.world
  | none => s

/-- The i-th synthetic user in the words of the specification: name
`User i`, email `useri@example.com`, username `useri`. -/
def specUser (i : Nat) : Doc :=
  [("name", BsonValue.str ("User " ++ toString i)),
   ("email", BsonValue.str ("user" ++ toString i ++ "@example.com")),
   ("username", BsonValue.str ("user" ++ toString i))]

/-- The reply of a handler that succeeded: status 200 sent with the JSON
content type, and the encoded value as the only write. -/
def jsonReply (v : JsonText) : ResponseWriter :=
  { head := false, header := [("Content-Type", "application/json")], wroteHeader := true,
    status := 200, sent := [("Content-Type", "application/json")], body := [Chunk.json v] }

/-- The reply of `healthCheckHandler` to a request, HEAD or not: status 200
sent before any header was set, so that the only header is the sniffed
`Content-Type`, and the status object as body unless the request is a HEAD. -/
def healthReply (head : Bool) : ResponseWriter :=
  { head := head, header := [], wroteHeader := true, status := 200,
    sent := [("Content-Type", "text/plain; charset=utf-8")],
    body := if head then [] else [Chunk.json (JsonText.object [("status", JVal.str "up")])] }

/-- The scenario POST, GET, DELETE, GET on an empty collection, every backend
answering and the store assigning string ids: the state after the POST. -/
def afterPost : World := after stringIDEnv emptyWorld postUsers

/-- The scenario: the state after the first GET. -/
def afterFirstGet : World := after stringIDEnv afterPost getUsers

/-- The scenario: the state after the DELETE. -/
def afterDelete : World := after stringIDEnv afterFirstGet deleteUsers

/-- The reply to a request of the scenario, when there is one. -/
def replyTo (s : World) (r : Request) : Option ResponseWriter :=
  (serve stringIDEnv s r).bind Outcome.response

/-! ## Properties of the metrics sink adapter -/

/-- C8: `WriteToInfluxDB` leaves the process through `log.Fatal` exactly when
building the batch, building the point or sending the batch fails; a fatal
exit sends nothing to InfluxDB; and when the three calls succeed it returns
normally, InfluxDB having received one more batch, for database `metrics` at
precision `s`, that holds the single point with the given measurement, tags
and fields. -/
theorem WriteToInfluxDB_fatal_iff (f : SinkFault) (nanos : Nat) (measurement : String)
    (tags : List (String × String)) (fields : List (String × FieldValue)) (s : World) :
    ((∃ s1, WriteToInfluxDB f nanos measurement tags fields s = .error s1) ↔
        (f.batchErr ≠ none ∨ f.pointErr ≠ none ∨ f.writeErr ≠ none)) ∧
    (∀ s1, WriteToInfluxDB f nanos measurement tags fields s = .error s1 →
        s1.influx = s.influx) ∧
    (f.batchErr = none → f.pointErr = none → f.writeErr = none →
      WriteToInfluxDB f nanos measurement tags fields s =
        .ok { s with
              influx := s.influx ++
                [{ database := "metrics", precision := "s",
                   points := [{ measurement := measurement, tags := tags,
                                fields := fields, time := s.clock }] }],
              clock := s.clock + nanos }) := by
  rcases f with ⟨b, p, w⟩
  cases b <;> cases p <;> cases w <;>
    simp [WriteToInfluxDB, logFatal, BatchPoints.AddPoint, InfluxDB]

/-- C8 at a concrete write: every call succeeds and the batch arrives. -/
theorem WriteToInfluxDB_fatal_iff_witness :
    SinkFault.healthy.batchErr = none ∧ SinkFault.healthy.pointErr = none ∧
    SinkFault.healthy.writeErr = none ∧
    WriteToInfluxDB SinkFault.healthy 5 "webapp" [("method", "GET")]
        [("count", FieldValue.int 1)] emptyWorld =
      .ok { emptyWorld with
            influx := emptyWorld.influx ++
              [{ database := "metrics", precision := "s",
                 points := [{ measurement := "webapp", tags := [("method", "GET")],
                              fields := [("count", FieldValue.int 1)],
                              time := emptyWorld.clock }] }],
            clock := emptyWorld.clock + 5 } :=
  ⟨rfl, rfl, rfl,
   (WriteToInfluxDB_fatal_iff SinkFault.healthy 5 "webapp" [("method", "GET")]
    [("count", FieldValue.int 1)] emptyWorld).2.2 rfl rfl rfl⟩

/-- A successful write in the shape the handlers use it. -/
theorem WriteToInfluxDB_healthy (nanos : Nat) (measurement : String)
    (tags : List (String × String)) (fields : List (String × FieldValue)) (s : World) :
    WriteToInfluxDB SinkFault.healthy nanos measurement tags fields s =
      .ok { s with influx := s.influx ++ [singlePoint measurement tags fields s.clock],
                   clock := s.clock + nanos } := by
  simp [WriteToInfluxDB, SinkFault.healthy, BatchPoints.AddPoint, InfluxDB, singlePoint]

/-! ## Properties of the handlers -/

/-- The fixed error reply, written out. -/
theorem internalServerError_eq :
    internalServerError =
      { head := false,
        header := [("Content-Type", "text/plain; charset=utf-8"),
                   ("X-Content-Type-Options", "nosniff")],
        wroteHeader := true, status := 500,
        sent := [("Content-Type", "text/plain; charset=utf-8"),
                 ("X-Content-Type-Options", "nosniff")],
        body := [Chunk.line "Internal server error"] } := by
  decide

/-- The empty filter matches every document. -/
theorem matchesFilter_nil (d : Doc) : Doc.matchesFilter [] d = true := by
  simp [Doc.matchesFilter]

/-- So the empty filter selects the whole collection. -/
theorem filter_matchesFilter_nil (l : List Doc) : l.filter (Doc.matchesFilter []) = l := by
  simp [List.filter_eq_self, matchesFilter_nil]

/-- The function `healthCheckHandler` on the writer of any request: it
returns the state it was given, with the reply `healthReply`. -/
theorem healthCheckHandler_returns (env : Env) (s : World) (r r1 : Request) :
    healthCheckHandler env s (ResponseWriter.forRequest r1) r =
      Outcome.returned s (healthReply (decide (r1.method = "HEAD"))) := by
  by_cases hm : r1.method = "HEAD" <;>
    simp [healthCheckHandler, Encode, ResponseWriter.Write, ResponseWriter.WriteHeader,
      ResponseWriter.forRequest, ResponseWriter.fresh, StatusOK, healthReply,
      DetectContentType, hm]

/-- C7: when `Find` or the decoding of the cursor fails in `getUsersHandler`,
when `InsertMany` fails in `postUsersHandler`, when `DeleteMany` fails in
`deleteAllUsersHandler`, the handler returns the one reply
`internalServerError`: status 500 and the line `Internal server error`,
whatever the error was, and InfluxDB has received nothing. -/
theorem store_error_gives_500 (env : Env) (s : World) (r : Request) :
    ((env.findErr ≠ none ∨ env.decodeErr ≠ none) →
      ∃ s1, getUsersHandler env s ResponseWriter.fresh r =
          Outcome.returned s1 internalServerError ∧ s1.influx = s.influx) ∧
    (env.insertErr ≠ none →
      ∃ s1, postUsersHandler env s ResponseWriter.fresh r =
          Outcome.returned s1 internalServerError ∧ s1.influx = s.influx) ∧
    (env.deleteErr ≠ none →
      ∃ s1, deleteAllUsersHandler env s ResponseWriter.fresh r =
          Outcome.returned s1 internalServerError ∧ s1.influx = s.influx) ∧
    internalServerError.status = 500 ∧
    internalServerError.body = [Chunk.line "Internal server error"] := by
  refine ⟨?_, ?_, ?_, by decide, by decide⟩
  · intro h
    cases hf : env.findErr with
    | some e => simp [getUsersHandler, Find, hf, logPrintln, internalServerError]
    | none =>
      cases hd : env.decodeErr with
      | some e => simp [getUsersHandler, Find, cursorAll, hf, hd, logPrintln, internalServerError]
      | none => simp [hf, hd] at h
  · intro h
    cases hi : env.insertErr with
    | some e => simp [postUsersHandler, InsertMany, hi, logPrintln, internalServerError]
    | none => exact absurd hi h
  · intro h
    cases hx : env.deleteErr with
    | some e => simp [deleteAllUsersHandler, DeleteMany, hx, logPrintln, internalServerError]
    | none => exact absurd hx h

/-- C7 at a store whose every call fails. -/
theorem store_error_gives_500_witness :
    storeDownEnv.findErr ≠ none ∧ storeDownEnv.insertErr ≠ none ∧
    storeDownEnv.deleteErr ≠ none ∧
    (∃ s1, getUsersHandler storeDownEnv threeUsers ResponseWriter.fresh getUsers =
        Outcome.returned s1 internalServerError ∧ s1.influx = threeUsers.influx) ∧
    (∃ s1, postUsersHandler storeDownEnv threeUsers ResponseWriter.fresh postUsers =
        Outcome.returned s1 internalServerError ∧ s1.influx = threeUsers.influx) ∧
    (∃ s1, deleteAllUsersHandler storeDownEnv threeUsers ResponseWriter.fresh deleteUsers =
        Outcome.returned s1 internalServerError ∧ s1.influx = threeUsers.influx) :=
  ⟨by decide, by decide, by decide,
   (store_error_gives_500 storeDownEnv threeUsers getUsers).1 (Or.inl (by decide)),
   (store_error_gives_500 storeDownEnv threeUsers postUsers).2.1 (by decide),
   (store_error_gives_500 storeDownEnv threeUsers deleteUsers).2.2.1 (by decide)⟩

/-- C1 (as amended): when `DeleteMany` succeeds and the metric write of the
handler succeeds, `deleteAllUsersHandler` leaves the collection empty, replies
200 with `deletedCount` equal to the number of documents the collection held
before the call, and InfluxDB receives exactly one more point: measurement
`user_operations`, tag `operation=delete`, field `count` equal to that
number. -/
theorem deleteAll_ok (env : Env) (s : World) (r : Request)
    (hdel : env.deleteErr = none) (hsink : env.opWrite = SinkFault.healthy) :
    ∃ s1, deleteAllUsersHandler env s ResponseWriter.fresh r =
        Outcome.returned s1
          (jsonReply (JsonText.object
            [("message", JVal.str "All users deleted successfully"),
             ("deletedCount", JVal.int s.users.length)])) ∧
      s1.users = [] ∧
      s1.influx = s.influx ++
        [singlePoint "user_operations" [("operation", "delete")]
          [("count", FieldValue.int s.users.length)] (s.clock + env.storeNanos)] := by
  simp [deleteAllUsersHandler, DeleteMany, hdel, hsink, WriteToInfluxDB_healthy,
    matchesFilter_nil, filter_matchesFilter_nil, Encode, ResponseWriter.Write, ResponseWriter.WriteHeader,
    ResponseWriter.headerSet, ResponseWriter.fresh, jsonReply]

/-- C1 (as amended) on a collection of three documents. -/
theorem deleteAll_ok_witness :
    healthyEnv.deleteErr = none ∧ healthyEnv.opWrite = SinkFault.healthy ∧
    ∃ s1, deleteAllUsersHandler healthyEnv threeUsers ResponseWriter.fresh deleteUsers =
        Outcome.returned s1
          (jsonReply (JsonText.object
            [("message", JVal.str "All users deleted successfully"),
             ("deletedCount", JVal.int threeUsers.users.length)])) ∧
      s1.users = [] ∧
      s1.influx = threeUsers.influx ++
        [singlePoint "user_operations" [("operation", "delete")]
          [("count", FieldValue.int threeUsers.users.length)]
          (threeUsers.clock + healthyEnv.storeNanos)] :=
  ⟨rfl, rfl, deleteAll_ok healthyEnv threeUsers deleteUsers rfl rfl⟩

/-- C1 as stated fails: `DeleteMany` succeeds on a collection of three
documents while InfluxDB refuses the batch; the handler leaves the process
through `log.Fatal`, so there is no reply and no point was written. -/
theorem deleteAll_sink_down :
    sinkDownEnv.deleteErr = none ∧
    deleteAllUsersHandler sinkDownEnv threeUsers ResponseWriter.fresh deleteUsers =
      Outcome.exited
        { users := [], storeCalls := [StoreCall.deleteMany []], influx := [],
          logged := ["connection refused"], clock := 1000000 } ∧
    (deleteAllUsersHandler sinkDownEnv threeUsers ResponseWriter.fresh deleteUsers).response
      = none := by
  decide

/-- The literal of the handler is the batch the specification describes. -/
theorem users_eq_specUsers : users = (List.range 10).map (fun i => specUser (i + 1)) := by
  decide

/-- The literal holds ten documents. -/
theorem users_length : users.length = 10 := rfl

/-- Whatever happens later, the one call `postUsersHandler` makes on the
collection is `InsertMany` of the literal. -/
theorem postUsers_storeCalls (env : Env) (s : World) (w : ResponseWriter) (r : Request) :
    (postUsersHandler env s w r).world.storeCalls =
      s.storeCalls ++ [StoreCall.insertMany users] := by
  cases hi : env.insertErr with
  | some e => simp [postUsersHandler, InsertMany, hi, logPrintln, Outcome.world]
  | none =>
    rcases hw : env.opWrite with ⟨b, p, x⟩
    cases ha : assertStrings (insertedIDs env users.length) <;>
    cases b <;> cases p <;> cases x <;>
      simp [postUsersHandler, InsertMany, hi, hw, ha, WriteToInfluxDB, logFatal,
        Outcome.world, Encode]

/-- C2 (as amended): for every request and every prior state,
`postUsersHandler` passes to `InsertMany` the ten documents `User i`,
`useri@example.com`, `useri` for i = 1..10, in that order; when the insert
succeeds and the metric write of the handler succeeds, InfluxDB receives
exactly one more point: measurement `user_operations`, tag
`operation=insert`, field `count` = 10; the outcome does not depend on the
request. -/
theorem postUsers_fixed_batch (env : Env) (s : World) (r : Request) :
    (postUsersHandler env s ResponseWriter.fresh r).world.storeCalls =
        s.storeCalls ++ [StoreCall.insertMany users] ∧
    users = (List.range 10).map (fun i => specUser (i + 1)) ∧
    (env.insertErr = none → env.opWrite = SinkFault.healthy →
      (postUsersHandler env s ResponseWriter.fresh r).world.influx =
        s.influx ++
          [singlePoint "user_operations" [("operation", "insert")]
            [("count", FieldValue.int 10)] (s.clock + env.storeNanos)]) ∧
    (∀ r1 : Request, postUsersHandler env s ResponseWriter.fresh r1 =
        postUsersHandler env s ResponseWriter.fresh r) := by
  refine ⟨postUsers_storeCalls env s _ r, users_eq_specUsers, ?_, fun _ => rfl⟩
  intro hi hw
  cases ha : assertStrings (insertedIDs env 10) <;>
    simp [postUsersHandler, InsertMany, hi, hw, ha, WriteToInfluxDB_healthy, Encode,
      Outcome.world, users_length]

/-- C2 (as amended) on an empty collection and a healthy InfluxDB. -/
theorem postUsers_fixed_batch_witness :
    healthyEnv.insertErr = none ∧ healthyEnv.opWrite = SinkFault.healthy ∧
    (postUsersHandler healthyEnv emptyWorld ResponseWriter.fresh postUsers).world.influx =
      emptyWorld.influx ++
        [singlePoint "user_operations" [("operation", "insert")]
          [("count", FieldValue.int 10)] (emptyWorld.clock + healthyEnv.storeNanos)] :=
  ⟨rfl, rfl, (postUsers_fixed_batch healthyEnv emptyWorld postUsers).2.2.1 rfl rfl⟩

/-- C2 as stated fails: the insert succeeds while InfluxDB refuses the batch;
the process is left through `log.Fatal` and no point was written. -/
theorem postUsers_sink_down :
    sinkDownEnv.insertErr = none ∧
    (postUsersHandler sinkDownEnv emptyWorld ResponseWriter.fresh postUsers).world.influx = [] ∧
    (postUsersHandler sinkDownEnv emptyWorld ResponseWriter.fresh postUsers).world.users.length
      = 10 ∧
    (∃ s1, postUsersHandler sinkDownEnv emptyWorld ResponseWriter.fresh postUsers =
      Outcome.exited s1) := by
  refine ⟨by decide, by decide, by decide, ⟨_, rfl⟩⟩

/-- The assertion loop succeeds on strings and keeps their order. -/
theorem assertStrings_map_str (ids : List String) :
    assertStrings (ids.map BsonValue.str) = some ids := by
  induction ids with
  | nil => rfl
  | cons a rest ih => simp [assertStrings, ih]

/-- The assertion loop panics as soon as one id is not a string. -/
theorem assertStrings_eq_none (ids : List BsonValue)
    (h : ∃ id ∈ ids, ∀ str : String, id ≠ BsonValue.str str) : assertStrings ids = none := by
  induction ids with
  | nil => simp at h
  | cons a rest ih =>
    cases a with
    | str a1 =>
      have hrest : ∃ id ∈ rest, ∀ str : String, id ≠ BsonValue.str str := by
        obtain ⟨id, hmem, hid⟩ := h
        rcases List.mem_cons.mp hmem with heq | hin
        · exact absurd heq (hid a1)
        · exact ⟨id, hin, hid⟩
      simp [assertStrings, ih hrest]
    | int n => rfl
    | objectID x => rfl
    | nonFinite => rfl

/-- C9 (as amended): when `InsertMany` succeeds and the metric write of the
handler succeeds, then (1) if every inserted id is a string, `postUsersHandler`
replies 200 with the message `10 users inserted successfully` and `userIds`
the inserted ids in the order of the result, and (2) if some inserted id is
not a string, the handler panics on the type assertion with nothing written
to the response. -/
theorem postUsers_reply (env : Env) (s : World) (r : Request)
    (hins : env.insertErr = none) (hsink : env.opWrite = SinkFault.healthy) :
    (∀ ids : List String, insertedIDs env users.length = ids.map BsonValue.str →
      ∃ s1, postUsersHandler env s ResponseWriter.fresh r =
        Outcome.returned s1
          (jsonReply (JsonText.object
            [("message", JVal.str "10 users inserted successfully"),
             ("userIds", JVal.strs ids)]))) ∧
    ((∃ id ∈ insertedIDs env users.length, ∀ str : String, id ≠ BsonValue.str str) →
      ∃ s1 msg, postUsersHandler env s ResponseWriter.fresh r =
        Outcome.panicked s1 ResponseWriter.fresh msg) := by
  constructor
  · intro ids hids
    have ha : assertStrings (insertedIDs env users.length) = some ids := by
      rw [hids]; exact assertStrings_map_str ids
    simp [postUsersHandler, InsertMany, hins, hsink, ha, WriteToInfluxDB_healthy, Encode,
      ResponseWriter.Write, ResponseWriter.WriteHeader, ResponseWriter.headerSet,
      ResponseWriter.fresh, jsonReply]
  · intro hbad
    have ha : assertStrings (insertedIDs env users.length) = none :=
      assertStrings_eq_none _ hbad
    simp [postUsersHandler, InsertMany, hins, hsink, ha, WriteToInfluxDB_healthy]

/-- C9 (as amended) at a store that assigns string ids and at one that assigns
ObjectIDs. -/
theorem postUsers_reply_witness :
    stringIDEnv.insertErr = none ∧ stringIDEnv.opWrite = SinkFault.healthy ∧
    insertedIDs stringIDEnv users.length =
      ["0", "1", "2", "3", "4", "5", "6", "7", "8", "9"].map BsonValue.str ∧
    BsonValue.objectID "0" ∈ insertedIDs healthyEnv users.length ∧
    (∃ s1, postUsersHandler stringIDEnv emptyWorld ResponseWriter.fresh postUsers =
        Outcome.returned s1
          (jsonReply (JsonText.object
            [("message", JVal.str "10 users inserted successfully"),
             ("userIds", JVal.strs ["0", "1", "2", "3", "4", "5", "6", "7", "8", "9"])]))) ∧
    (∃ s1 msg, postUsersHandler healthyEnv emptyWorld ResponseWriter.fresh postUsers =
        Outcome.panicked s1 ResponseWriter.fresh msg) :=
  ⟨rfl, rfl, by decide, by decide,
   (postUsers_reply stringIDEnv emptyWorld postUsers rfl rfl).1
      ["0", "1", "2", "3", "4", "5", "6", "7", "8", "9"] (by decide),
   (postUsers_reply healthyEnv emptyWorld postUsers rfl rfl).2
      ⟨BsonValue.objectID "0", by decide, by intro str; exact BsonValue.noConfusion⟩⟩

/-- C9 as stated fails: `InsertMany` succeeds and every inserted id is a
string, but InfluxDB refuses the batch: the process is left through
`log.Fatal` before any reply is written. -/
theorem postUsers_reply_sink_down :
    sinkDownEnv.insertErr = none ∧
    insertedIDs sinkDownEnv users.length =
      ["0", "1", "2", "3", "4", "5", "6", "7", "8", "9"].map BsonValue.str ∧
    (postUsersHandler sinkDownEnv emptyWorld ResponseWriter.fresh postUsers).response = none := by
  decide

/-- What `cursor.All` leaves in a slice: untouched when the cursor is empty. -/
theorem foldl_goAppend (cursor : List Doc) (results : Option (List Doc)) :
    cursor.foldl goAppend results =
      if cursor = [] then results else some (results.getD [] ++ cursor) := by
  induction cursor generalizing results with
  | nil => simp
  | cons d rest ih =>
    rw [List.foldl_cons, ih]
    by_cases hr : rest = [] <;> simp [goAppend, hr]

/-- The part of C3 that holds: on a collection that is not empty and whose
documents `encoding/json` accepts, with `Find` and the decoding succeeding,
`getUsersHandler` replies 200 with the array of the documents of the
collection. -/
theorem getUsers_array (env : Env) (s : World) (r : Request)
    (hfind : env.findErr = none) (hdec : env.decodeErr = none)
    (hne : s.users ≠ []) (henc : s.users.all Doc.encodable = true) :
    ∃ s1, getUsersHandler env s ResponseWriter.fresh r =
      Outcome.returned s1 (jsonReply (JsonText.array s.users)) := by
  simp [getUsersHandler, Find, cursorAll, hfind, hdec, filter_matchesFilter_nil,
    foldl_goAppend, hne, marshalDocs, henc, Encode, ResponseWriter.Write,
    ResponseWriter.WriteHeader, ResponseWriter.headerSet, ResponseWriter.fresh, jsonReply]

/-- On an empty collection, with `Find` and the decoding succeeding, the body
`getUsersHandler` writes is `null`. -/
theorem getUsers_empty (env : Env) (s : World) (r : Request)
    (hfind : env.findErr = none) (hdec : env.decodeErr = none) (hempty : s.users = []) :
    ∃ s1, getUsersHandler env s ResponseWriter.fresh r =
      Outcome.returned s1 (jsonReply JsonText.null) := by
  simp [getUsersHandler, Find, cursorAll, hfind, hdec, hempty, marshalDocs, Encode,
    ResponseWriter.Write, ResponseWriter.WriteHeader, ResponseWriter.headerSet,
    ResponseWriter.fresh, jsonReply]

/-- C3 at the empty collection: `Find` and the decoding succeed, the reply is
200 and its body is `null`, not the empty array. -/
theorem getUsers_empty_is_null :
    healthyEnv.findErr = none ∧ healthyEnv.decodeErr = none ∧ emptyWorld.users = [] ∧
    (getUsersHandler healthyEnv emptyWorld ResponseWriter.fresh getUsers).response =
      some (jsonReply JsonText.null) ∧
    (getUsersHandler healthyEnv emptyWorld ResponseWriter.fresh getUsers).response ≠
      some (jsonReply (JsonText.array [])) := by
  decide

/-- C5 on the code: from the empty collection, the first GET replies with an
array of 10 documents, the DELETE reports `deletedCount` 10 and empties the
collection, and the second GET replies `null`, not the empty array. -/
theorem scenario_second_get_is_null :
    emptyWorld.users = [] ∧
    (∃ docs, replyTo afterPost getUsers = some (jsonReply (JsonText.array docs)) ∧
      docs.length = 10) ∧
    replyTo afterFirstGet deleteUsers =
      some (jsonReply (JsonText.object
        [("message", JVal.str "All users deleted successfully"),
         ("deletedCount", JVal.int 10)])) ∧
    afterDelete.users = [] ∧
    replyTo afterDelete getUsers = some (jsonReply JsonText.null) ∧
    replyTo afterDelete getUsers ≠ some (jsonReply (JsonText.array [])) := by
  refine ⟨rfl, ⟨afterPost.users, by decide, by decide⟩, by decide, by decide, by decide,
    by decide⟩

/-! ## Properties of the middleware and of the routes -/

/-- A duration measured forwards on the monotonic clock is not negative. -/
theorem timeSub_nonneg (t u : Nat) (h : u ≤ t) : 0 ≤ timeSub t u := by
  have h1 : (0 : Int) ≤ (t : Int) - (u : Int) := by omega
  unfold timeSub maxDuration minDuration
  simp only
  split
  · norm_num
  · split <;> omega

/-- The clock does not run backwards while `WriteToInfluxDB` runs. -/
theorem WriteToInfluxDB_clock (f : SinkFault) (nanos : Nat) (measurement : String)
    (tags : List (String × String)) (fields : List (String × FieldValue)) (s s1 : World)
    (h : WriteToInfluxDB f nanos measurement tags fields s = .ok s1) : s.clock ≤ s1.clock := by
  rcases f with ⟨b, p, x⟩
  cases b <;> cases p <;> cases x <;> simp [WriteToInfluxDB] at h
  subst h
  simp

/-- The clock does not run backwards while one of the four handlers runs. -/
theorem handler_clock (next : Handler)
    (hnext : next = getUsersHandler ∨ next = postUsersHandler ∨
      next = deleteAllUsersHandler ∨ next = healthCheckHandler)
    (env : Env) (s : World) (w : ResponseWriter) (r : Request) (s1 : World)
    (w1 : ResponseWriter) (hret : next env s w r = Outcome.returned s1 w1) :
    s.clock ≤ s1.clock := by
  rcases hnext with h | h | h | h <;> subst h
  · unfold getUsersHandler Find cursorAll at hret
    cases hf : env.findErr <;> cases hd : env.decodeErr <;>
      simp only [hf, hd, logPrintln] at hret
    · cases hm : marshalDocs (List.foldl goAppend none
          (List.filter (Doc.matchesFilter []) s.users)) <;>
        simp only [hm, Encode, logPrintln, Outcome.returned.injEq] at hret <;>
        (rw [← hret.1]; simp)
    all_goals (simp only [Outcome.returned.injEq] at hret; rw [← hret.1]; simp)
  · unfold postUsersHandler InsertMany at hret
    cases hi : env.insertErr with
    | some e =>
      simp only [hi, logPrintln, Outcome.returned.injEq] at hret
      rw [← hret.1]; simp
    | none =>
      simp only [hi] at hret
      split at hret
      · cases hret
      · rename_i s2 hW
        have hc := WriteToInfluxDB_clock _ _ _ _ _ _ _ hW
        simp only at hc
        split at hret
        · cases hret
        · simp only [Encode, Outcome.returned.injEq] at hret
          rw [← hret.1]; omega
  · unfold deleteAllUsersHandler DeleteMany at hret
    cases hx : env.deleteErr with
    | some e =>
      simp only [hx, logPrintln, Outcome.returned.injEq] at hret
      rw [← hret.1]; simp
    | none =>
      simp only [hx] at hret
      split at hret
      · cases hret
      · rename_i s2 hW
        have hc := WriteToInfluxDB_clock _ _ _ _ _ _ _ hW
        simp only at hc
        simp only [Encode, Outcome.returned.injEq] at hret
        rw [← hret.1]; omega
  · simp only [healthCheckHandler, Outcome.returned.injEq] at hret
    rw [← hret.1]

/-- What the middleware does after a handler that returned, when its own
metric write succeeds. -/
theorem metricsMiddleware_returned (next : Handler) (env : Env) (s : World)
    (w : ResponseWriter) (r : Request) (s1 : World) (w1 : ResponseWriter)
    (hret : next env s w r = Outcome.returned s1 w1)
    (hsink : env.mwWrite = SinkFault.healthy) :
    metricsMiddleware next env s w r =
      Outcome.returned
        { s1 with
          influx := s1.influx ++
            [singlePoint "webapp" [("method", r.method), ("path", r.path)]
              [("count", FieldValue.int 1),
               ("duration", FieldValue.seconds (timeSub s1.clock s.clock))] s1.clock],
          clock := s1.clock + env.sinkNanos } w1 := by
  simp [metricsMiddleware, hret, hsink, WriteToInfluxDB_healthy]

/-- C4 (as amended): for each of the four handlers `main` wraps and every
request, (1) if the handler returns, with a 200 or with a 500 reply, and the
metric write of the middleware succeeds, InfluxDB receives after whatever the
handler wrote exactly one more point: measurement `webapp`, tags `method` and
`path` of the request, fields `count` = 1 and a `duration` that is not
negative, and the reply is the one the handler wrote; (2) if the handler
panics or leaves the process, the wrapped call ends the same way in the same
state, so no `webapp` point is written. -/
theorem metricsMiddleware_one_point (next : Handler)
    (hnext : next = getUsersHandler ∨ next = postUsersHandler ∨
      next = deleteAllUsersHandler ∨ next = healthCheckHandler)
    (env : Env) (s : World) (w : ResponseWriter) (r : Request) :
    (∀ s1 w1, next env s w r = Outcome.returned s1 w1 → env.mwWrite = SinkFault.healthy →
      ∃ d : Int, 0 ≤ d ∧
        metricsMiddleware next env s w r =
          Outcome.returned
            { s1 with
              influx := s1.influx ++
                [singlePoint "webapp" [("method", r.method), ("path", r.path)]
                  [("count", FieldValue.int 1), ("duration", FieldValue.seconds d)] s1.clock],
              clock := s1.clock + env.sinkNanos } w1) ∧
    (∀ s1 w1 msg, next env s w r = Outcome.panicked s1 w1 msg →
      metricsMiddleware next env s w r = Outcome.panicked s1 w1 msg) ∧
    (∀ s1, next env s w r = Outcome.exited s1 →
      metricsMiddleware next env s w r = Outcome.exited s1) := by
  refine ⟨?_, ?_, ?_⟩
  · intro s1 w1 hret hsink
    exact ⟨timeSub s1.clock s.clock,
      timeSub_nonneg _ _ (handler_clock next hnext env s w r s1 w1 hret),
      metricsMiddleware_returned next env s w r s1 w1 hret hsink⟩
  · intro s1 w1 msg hp
    simp [metricsMiddleware, hp]
  · intro s1 hx
    simp [metricsMiddleware, hx]

/-- C4 (as amended) at a health check that returns, at a POST that panics and
at a DELETE that leaves the process. -/
theorem metricsMiddleware_one_point_witness :
    healthyEnv.mwWrite = SinkFault.healthy ∧
    (∃ d : Int, 0 ≤ d ∧
      metricsMiddleware healthCheckHandler healthyEnv threeUsers ResponseWriter.fresh getHealth =
        Outcome.returned
          { threeUsers with
            influx := threeUsers.influx ++
              [singlePoint "webapp" [("method", getHealth.method), ("path", getHealth.path)]
                [("count", FieldValue.int 1), ("duration", FieldValue.seconds d)]
                threeUsers.clock],
            clock := threeUsers.clock + healthyEnv.sinkNanos }
          (healthReply false)) ∧
    metricsMiddleware postUsersHandler healthyEnv emptyWorld ResponseWriter.fresh postUsers =
      Outcome.panicked
        (postUsersHandler healthyEnv emptyWorld ResponseWriter.fresh postUsers).world
        ResponseWriter.fresh "interface conversion: interface \x7b\x7d is not string" ∧
    metricsMiddleware deleteAllUsersHandler sinkDownEnv threeUsers ResponseWriter.fresh
        deleteUsers =
      Outcome.exited
        (deleteAllUsersHandler sinkDownEnv threeUsers ResponseWriter.fresh deleteUsers).world :=
  ⟨rfl,
   (metricsMiddleware_one_point healthCheckHandler (Or.inr (Or.inr (Or.inr rfl)))
      healthyEnv threeUsers ResponseWriter.fresh getHealth).1 _ _ (by decide) rfl,
   (metricsMiddleware_one_point postUsersHandler (Or.inr (Or.inl rfl))
      healthyEnv emptyWorld ResponseWriter.fresh postUsers).2.1 _ _ _ (by decide),
   (metricsMiddleware_one_point deleteAllUsersHandler (Or.inr (Or.inr (Or.inl rfl)))
      sinkDownEnv threeUsers ResponseWriter.fresh deleteUsers).2.2 _ (by decide)⟩

/-- C4 as stated fails: POST /users on a store that assigns ObjectIDs. The
handler panics on the type assertion, the statements of the middleware after
`next.ServeHTTP` never run, and InfluxDB holds the `user_operations` point
only: no point of measurement `webapp`. -/
theorem metricsMiddleware_panic_no_point :
    (∃ s1 w1 msg, serve healthyEnv emptyWorld postUsers = some (Outcome.panicked s1 w1 msg)) ∧
    (after healthyEnv emptyWorld postUsers).influx =
      [singlePoint "user_operations" [("operation", "insert")]
        [("count", FieldValue.int 10)] 1000000] ∧
    (∀ b ∈ (after healthyEnv emptyWorld postUsers).influx,
      ∀ pt ∈ b.points, pt.measurement ≠ "webapp") := by
  refine ⟨⟨_, _, _, rfl⟩, by decide, by decide⟩

/-- The middleware hands on the reply of the handler untouched. -/
theorem metricsMiddleware_returned_inv (next : Handler) (env : Env) (s : World)
    (w : ResponseWriter) (r : Request) (s2 : World) (w2 : ResponseWriter)
    (h : metricsMiddleware next env s w r = Outcome.returned s2 w2) :
    ∃ s1, next env s w r = Outcome.returned s1 w2 := by
  unfold metricsMiddleware at h
  cases hn : next env s w r with
  | returned s1 w1 =>
    simp only [hn] at h
    split at h
    · cases h
    · simp only [Outcome.returned.injEq] at h
      exact ⟨s1, by rw [h.2]⟩
  | panicked s1 w1 msg => simp [hn] at h
  | exited s1 => simp [hn] at h

/-- A first write after the JSON content type was set gives `jsonReply`. -/
theorem write_json (v : JsonText) :
    (ResponseWriter.fresh.headerSet "Content-Type" "application/json").Write (Chunk.json v) =
      jsonReply v := by
  simp [ResponseWriter.Write, ResponseWriter.WriteHeader, ResponseWriter.headerSet,
    ResponseWriter.fresh, jsonReply]

/-- The error reply replaces a content type set before it. -/
theorem httpError_after_json :
    httpError (ResponseWriter.fresh.headerSet "Content-Type" "application/json")
      "Internal server error" StatusInternalServerError = internalServerError := by
  decide

/-- The replies of `getUsersHandler`. -/
theorem getUsers_replies (env : Env) (s : World) (r : Request) (s1 : World)
    (w1 : ResponseWriter)
    (h : getUsersHandler env s ResponseWriter.fresh r = Outcome.returned s1 w1) :
    (∃ v, w1 = jsonReply v) ∨ w1 = internalServerError := by
  unfold getUsersHandler Find cursorAll at h
  cases hf : env.findErr <;> cases hd : env.decodeErr <;>
    simp only [hf, hd, logPrintln] at h
  · cases hm : marshalDocs (List.foldl goAppend none
        (List.filter (Doc.matchesFilter []) s.users)) with
    | error e =>
      simp only [hm, Encode, logPrintln, Outcome.returned.injEq, httpError_after_json] at h
      exact Or.inr h.2.symm
    | ok v =>
      simp only [hm, Encode, Outcome.returned.injEq, write_json] at h
      exact Or.inl ⟨v, h.2.symm⟩
  all_goals
    (simp only [Outcome.returned.injEq] at h; exact Or.inr h.2.symm)

/-- The replies of `postUsersHandler`. -/
theorem postUsers_replies (env : Env) (s : World) (r : Request) (s1 : World)
    (w1 : ResponseWriter)
    (h : postUsersHandler env s ResponseWriter.fresh r = Outcome.returned s1 w1) :
    (∃ v, w1 = jsonReply v) ∨ w1 = internalServerError := by
  unfold postUsersHandler InsertMany at h
  cases hi : env.insertErr with
  | some e =>
    simp only [hi, logPrintln, Outcome.returned.injEq] at h
    exact Or.inr h.2.symm
  | none =>
    simp only [hi] at h
    split at h
    · cases h
    · split at h
      · cases h
      · simp only [Encode, Outcome.returned.injEq, write_json] at h
        exact Or.inl ⟨_, h.2.symm⟩

/-- The replies of `deleteAllUsersHandler`. -/
theorem deleteAll_replies (env : Env) (s : World) (r : Request) (s1 : World)
    (w1 : ResponseWriter)
    (h : deleteAllUsersHandler env s ResponseWriter.fresh r = Outcome.returned s1 w1) :
    (∃ v, w1 = jsonReply v) ∨ w1 = internalServerError := by
  unfold deleteAllUsersHandler DeleteMany at h
  cases hx : env.deleteErr with
  | some e =>
    simp only [hx, logPrintln, Outcome.returned.injEq] at h
    exact Or.inr h.2.symm
  | none =>
    simp only [hx] at h
    split at h
    · cases h
    · simp only [Encode, Outcome.returned.injEq, write_json] at h
      exact Or.inl ⟨_, h.2.symm⟩

/-- The reply of the health route is not sent as JSON: `healthCheckHandler`
sends the status line before any header is set, unlike the three other
handlers, so the program sets no `Content-Type` and the server sniffs plain
text. -/
theorem health_reply_content_type (env : Env) (s : World) (r : Request) :
    ∃ w1, (healthCheckHandler env s (ResponseWriter.forRequest r) r).response = some w1 ∧
      w1.header = [] ∧ w1.sentHeader "Content-Type" = some "text/plain; charset=utf-8" := by
  refine ⟨healthReply (decide (r.method = "HEAD")), ?_, rfl, rfl⟩
  rw [healthCheckHandler_returns]
  rfl

/-- The three `/users` routes take GET, POST and DELETE only, so their writer
is never the writer of a HEAD. -/
theorem forRequest_users (r : Request) (h : Handler) (hroute : router r = some h)
    (hpath : r.path = "/users") : ResponseWriter.forRequest r = ResponseWriter.fresh := by
  have hm : r.method ≠ "HEAD" := by
    intro hhead
    simp [router, hpath, hhead] at hroute
  simp [ResponseWriter.forRequest, ResponseWriter.fresh, hm]

/-- C10 (as amended): every reply the three `/users` routes produce is either
a 200 reply sent with `Content-Type: application/json` or a 500 reply sent
with `Content-Type: text/plain; charset=utf-8`. -/
theorem users_routes_content_type (env : Env) (s : World) (r : Request) (h : Handler)
    (s1 : World) (w1 : ResponseWriter)
    (hroute : router r = some h) (hpath : r.path = "/users")
    (hret : h env s (ResponseWriter.forRequest r) r = Outcome.returned s1 w1) :
    (w1.status = 200 ∧ w1.sentHeader "Content-Type" = some "application/json") ∨
    (w1.status = 500 ∧ w1.sentHeader "Content-Type" = some "text/plain; charset=utf-8") := by
  have key : (∃ v, w1 = jsonReply v) ∨ w1 = internalServerError := by
    rw [forRequest_users r h hroute hpath] at hret
    unfold router at hroute
    simp only [hpath, if_true] at hroute
    split at hroute
    · cases hroute
      obtain ⟨s0, h0⟩ := metricsMiddleware_returned_inv _ _ _ _ _ _ _ hret
      exact getUsers_replies env s r s0 w1 h0
    · split at hroute
      · cases hroute
        obtain ⟨s0, h0⟩ := metricsMiddleware_returned_inv _ _ _ _ _ _ _ hret
        exact postUsers_replies env s r s0 w1 h0
      · split at hroute
        · cases hroute
          obtain ⟨s0, h0⟩ := metricsMiddleware_returned_inv _ _ _ _ _ _ _ hret
          exact deleteAll_replies env s r s0 w1 h0
        · cases hroute
  rcases key with ⟨v, hv⟩ | hv
  · left
    subst hv
    exact ⟨rfl, by simp [jsonReply, ResponseWriter.sentHeader]⟩
  · right
    subst hv
    exact ⟨by decide, by decide⟩

/-- C10 (as amended) at a GET that succeeds. -/
theorem users_routes_content_type_witness :
    router getUsers = some (metricsMiddleware getUsersHandler) ∧
    getUsers.path = "/users" ∧
    metricsMiddleware getUsersHandler healthyEnv threeUsers
        (ResponseWriter.forRequest getUsers) getUsers =
      Outcome.returned (after healthyEnv threeUsers getUsers)
        (jsonReply (JsonText.array threeUsers.users)) ∧
    (((jsonReply (JsonText.array threeUsers.users)).status = 200 ∧
      (jsonReply (JsonText.array threeUsers.users)).sentHeader "Content-Type" =
        some "application/json") ∨
    ((jsonReply (JsonText.array threeUsers.users)).status = 500 ∧
      (jsonReply (JsonText.array threeUsers.users)).sentHeader "Content-Type" =
        some "text/plain; charset=utf-8")) :=
  ⟨by simp [router, getUsers], rfl, by decide,
   users_routes_content_type healthyEnv threeUsers getUsers
    (metricsMiddleware getUsersHandler) (after healthyEnv threeUsers getUsers)
    (jsonReply (JsonText.array threeUsers.users)) (by simp [router, getUsers]) rfl (by decide)⟩

/-- C10 as stated fails: GET /users while `Find` fails. The reply is the 500
of `http.Error`, sent with `Content-Type: text/plain; charset=utf-8`. -/
theorem find_error_reply_is_plain_text :
    storeDownEnv.findErr ≠ none ∧
    ((serve storeDownEnv threeUsers getUsers).bind Outcome.response).map
        (fun w => (w.status, w.sentHeader "Content-Type")) =
      some (500, some "text/plain; charset=utf-8") ∧
    ((serve storeDownEnv threeUsers getUsers).bind Outcome.response).bind
        (fun w => w.sentHeader "Content-Type") ≠ some "application/json" := by
  decide

/-! ## The health route -/

/-- A metric write that meets an error leaves the process, and the collection
and its call log as they were. -/
theorem WriteToInfluxDB_unhealthy (f : SinkFault) (hf : f ≠ SinkFault.healthy) (nanos : Nat)
    (measurement : String) (tags : List (String × String))
    (fields : List (String × FieldValue)) (s : World) :
    ∃ s1, WriteToInfluxDB f nanos measurement tags fields s = .error s1 ∧
      s1.users = s.users ∧ s1.storeCalls = s.storeCalls ∧ s1.influx = s.influx := by
  rcases f with ⟨b, p, x⟩
  cases b <;> cases p <;> cases x <;>
    simp [WriteToInfluxDB, logFatal, SinkFault.healthy] at hf ⊢

/-- Every request whose path is `/health` reaches the wrapped
`healthCheckHandler`, whatever its method. -/
theorem router_health (r : Request) (hpath : r.path = "/health") :
    router r = some (metricsMiddleware healthCheckHandler) := by
  simp [router, hpath]

/-- C6 (as amended): for every request to `/health` (any method, any body) and
every state of the document store, the route neither reads nor changes the
document store, and (1) when the metric write of the middleware succeeds, the
reply has status 200 and the body is the JSON object whose one member
`status` is `up`, except that the reply to a HEAD has no body; (2) when that
write fails, the process is left through `log.Fatal` and there is no reply. -/
theorem health_route (env : Env) (s : World) (r : Request) (hpath : r.path = "/health") :
    (env.mwWrite = SinkFault.healthy →
      ∃ s1 w1, serve env s r = some (Outcome.returned s1 w1) ∧
        w1.status = 200 ∧
        w1.body = (if r.method = "HEAD" then []
          else [Chunk.json (JsonText.object [("status", JVal.str "up")])]) ∧
        s1.users = s.users ∧ s1.storeCalls = s.storeCalls) ∧
    (env.mwWrite ≠ SinkFault.healthy →
      ∃ s1, serve env s r = some (Outcome.exited s1) ∧
        s1.users = s.users ∧ s1.storeCalls = s.storeCalls) := by
  constructor
  · intro hsink
    have hmw := metricsMiddleware_returned healthCheckHandler env s
      (ResponseWriter.forRequest r) r s _ (healthCheckHandler_returns env s r r) hsink
    have hserve : serve env s r =
        some (metricsMiddleware healthCheckHandler env s (ResponseWriter.forRequest r) r) := by
      rw [serve, router_health r hpath]; rfl
    rw [hserve, hmw]
    refine ⟨_, _, rfl, rfl, ?_, rfl, rfl⟩
    by_cases hm : r.method = "HEAD" <;> simp [healthReply, hm]
  · intro hsink
    obtain ⟨s1, hW, hu, hc, _⟩ := WriteToInfluxDB_unhealthy env.mwWrite hsink env.sinkNanos
      "webapp" [("method", r.method), ("path", r.path)]
      [("count", FieldValue.int 1), ("duration", FieldValue.seconds (timeSub s.clock s.clock))] s
    refine ⟨s1, ?_, hu, hc⟩
    rw [serve, router_health r hpath]
    simp [metricsMiddleware, healthCheckHandler_returns, hW]

/-- C6 (as amended) at a GET and at a HEAD with InfluxDB answering, and at a
GET with InfluxDB refusing the batch. -/
theorem health_route_witness :
    getHealth.path = "/health" ∧ healthyEnv.mwWrite = SinkFault.healthy ∧
    sinkDownEnv.mwWrite ≠ SinkFault.healthy ∧
    (∃ s1 w1, serve healthyEnv threeUsers getHealth = some (Outcome.returned s1 w1) ∧
      w1.status = 200 ∧
      w1.body = (if getHealth.method = "HEAD" then []
        else [Chunk.json (JsonText.object [("status", JVal.str "up")])]) ∧
      s1.users = threeUsers.users ∧ s1.storeCalls = threeUsers.storeCalls) ∧
    (∃ s1 w1, serve healthyEnv threeUsers headHealth = some (Outcome.returned s1 w1) ∧
      w1.status = 200 ∧
      w1.body = (if headHealth.method = "HEAD" then []
        else [Chunk.json (JsonText.object [("status", JVal.str "up")])]) ∧
      s1.users = threeUsers.users ∧ s1.storeCalls = threeUsers.storeCalls) ∧
    (∃ s1, serve sinkDownEnv threeUsers getHealth = some (Outcome.exited s1) ∧
      s1.users = threeUsers.users ∧ s1.storeCalls = threeUsers.storeCalls) :=
  ⟨rfl, rfl, by decide,
   (health_route healthyEnv threeUsers getHealth rfl).1 rfl,
   (health_route healthyEnv threeUsers headHealth rfl).1 rfl,
   (health_route sinkDownEnv threeUsers getHealth rfl).2 (by decide)⟩

/-- C6 as stated fails on the route `main` registers.  With InfluxDB refusing
the batch, a GET /health ends in `log.Fatal` inside the middleware: the
process is gone and there is no reply.  With InfluxDB answering, the reply to
a HEAD /health has status 200 and no body. -/
theorem health_route_sink_down :
    (∃ s1, serve sinkDownEnv threeUsers getHealth = some (Outcome.exited s1)) ∧
    (serve sinkDownEnv threeUsers getHealth).bind Outcome.response = none ∧
    ((serve healthyEnv threeUsers headHealth).bind Outcome.response).map
        (fun w => (w.status, w.body)) = some (200, []) := by
  refine ⟨⟨_, rfl⟩, by decide, by decide⟩

/-! ## The scenario with the ids the driver generates -/

/-- The scenario of C5 again, the store assigning ObjectIDs as the driver
does for documents without `_id`: the POST panics after the insert and gets
no reply, the first GET replies with 10 documents, the DELETE reports 10, the
second GET replies `null`. -/
theorem scenario_with_objectIDs :
    (serve healthyEnv emptyWorld postUsers).bind Outcome.response = none ∧
    (∃ docs, (serve healthyEnv (after healthyEnv emptyWorld postUsers) getUsers).bind
        Outcome.response = some (jsonReply (JsonText.array docs)) ∧ docs.length = 10) ∧
    (serve healthyEnv
        (after healthyEnv (after healthyEnv emptyWorld postUsers) getUsers) deleteUsers).bind
      Outcome.response =
      some (jsonReply (JsonText.object
        [("message", JVal.str "All users deleted successfully"),
         ("deletedCount", JVal.int 10)])) ∧
    (serve healthyEnv
        (after healthyEnv
          (after healthyEnv (after healthyEnv emptyWorld postUsers) getUsers) deleteUsers)
        getUsers).bind Outcome.response = some (jsonReply JsonText.null) := by
  refine ⟨by decide, ⟨(after healthyEnv emptyWorld postUsers).users, by decide, by decide⟩,
    by decide, by decide⟩

end Webapp
